import Mathlib

/-!
Verification of the XKT format V1 parser
(`src/plugins/XKTLoaderPlugin/parsers/ParserV1.js`).

The `load` function walks the decompressed container arrays, slices the shared
geometry buffers into per-mesh geometries via the offset tables, applies the
classification-based filtering and defaulting options, and issues a sequence of
`createMesh` / `createEntity` calls on the performance-model builder.  We embed
`load` as a pure function from the decoded container, the options and the
metadata lookup to the list of builder calls (the trace), and state the spec's
claims about that trace.

Modelling conventions:
  * JS typed arrays become Lean lists; `Uint16Array`/`Uint32Array`/`Uint8Array`
    elements are `ℕ`, `Int8Array` elements are `ℤ`, `Float32Array` contents and
    all decoded color/opacity values are `ℚ` (the divisions by 255.0 performed
    by the parser are exact at this granularity).
  * `TypedArray.prototype.subarray(begin, end)` clamps `begin` and `end` to
    `[0, length]` and yields the empty view when `end ≤ begin`; this is exactly
    `(l.take e).drop b` on lists.
  * An out-of-range read `a[i]` is modelled as a default value `0` (the claims
    under verification only exercise in-range reads).
  * `viewer.metaScene.metaObjects` is modelled as a lookup function
    `String → Option MetaObject`; a missing or empty (falsy) `type` string is
    modelled as `none`.
  * `performanceModel` is modelled by the trace of events emitted, in order.
-/

namespace XKTV1

/-- JS `TypedArray.prototype.subarray(begin, end)`: elements in `[begin, end)`
intersected with the valid index range of the array. -/
def subarray {α : Type} (l : List α) (b e : ℕ) : List α :=
  (l.take e).drop b

/-- Value-level semantics of `decompressColor` (ParserV1.js lines 57–65): the
three channels of the returned buffer after the call, each incoming byte
divided by 255.0.  (The buffer-reuse effect of the closure is modelled
separately by `decompressColorS` below.) -/
def decompressColor (color : List ℕ) : List ℚ :=
  [(color.getD 0 0 : ℚ) / 255, (color.getD 1 0 : ℚ) / 255, (color.getD 2 0 : ℚ) / 255]

/-- The decompressed container (`inflatedData`), field for field. -/
structure DecodedContainer where
  positions : List ℕ
  normals : List ℤ
  indices : List ℕ
  edgeIndices : List ℕ
  meshPositions : List ℕ
  meshIndices : List ℕ
  meshEdgesIndices : List ℕ
  meshColors : List ℕ
  entityIDs : List String
  entityMeshes : List ℕ
  entityIsObjects : List ℕ
  positionsDecodeMatrix : List ℚ

/-- A classification metadata object; `type` is `none` when the JS `type`
property is missing or falsy. -/
structure MetaObject where
  type : Option String

/-- One entry of `options.objectDefaults`. -/
structure ObjectProps where
  visible : Option Bool := none
  pickable : Option Bool := none
  colorize : Option (List ℚ) := none
  opacity : Option ℚ := none

/-- The loader options consulted by `load`. -/
structure Options where
  excludeTypesMap : Option (String → Bool) := none
  includeTypesMap : Option (String → Bool) := none
  objectDefaults : Option (String → Option ObjectProps) := none
  excludeUnclassifiedObjects : Bool := false

/-- The `meshDefaults` object accumulated per entity (lines 139–152): only
`color` (from `props.colorize`) and `opacity` are ever set. -/
structure MeshDefaults where
  color : Option (List ℚ) := none
  opacity : Option ℚ := none

/-- The `entityDefaults` object accumulated per entity: only `visible` and
`pickable` are ever set (to `false`). -/
structure EntityDefaults where
  visible : Option Bool := none
  pickable : Option Bool := none

/-- The record passed to `performanceModel.createMesh`.  Fields that the
literal object at lines 170–180 always populates are wrapped in `Option` so
that the defaults-merge function below is a genuine merge. -/
structure MeshRecord where
  id : String
  primitive : String
  positions : List ℕ
  normals : List ℤ
  indices : List ℕ
  edgeIndices : List ℕ
  positionsDecodeMatrix : List ℚ
  color : Option (List ℚ)
  opacity : Option ℚ
  deriving DecidableEq

/-- The record passed to `performanceModel.createEntity` (lines 185–189). -/
structure EntityRecord where
  id : String
  isObject : Bool
  meshIds : List String
  visible : Option Bool
  pickable : Option Bool
  deriving DecidableEq

/-- Modelled from the spec: `utils.apply(meshDefaults, record)` — the shallow
merge of a defaults object into a literal-fields object.  `utils.apply` lives
in `src/viewer/scene/utils.js`, which is not part of the sources under
verification; the spec states that "entity/type defaults apply only where the
literal format data does not already dictate the value" (defaults are
"overridable by literal mesh color"), so the merge keeps every field the
literal record already carries and fills only the absent ones. -/
def applyMeshDefaults (d : MeshDefaults) (r : MeshRecord) : MeshRecord :=
  { r with
    color := match r.color with
      | some c => some c
      | none => d.color
    opacity := match r.opacity with
      | some o => some o
      | none => d.opacity }

/-- Modelled from the spec: `utils.apply(entityDefaults, record)`, same merge
rule as `applyMeshDefaults` for the entity-creation record. -/
def applyEntityDefaults (d : EntityDefaults) (r : EntityRecord) : EntityRecord :=
  { r with
    visible := match r.visible with
      | some v => some v
      | none => d.visible
    pickable := match r.pickable with
      | some p => some p
      | none => d.pickable }

/-- The per-entity filtering decision (lines 127–157): with metadata present,
skip when the exclude map hits the (known) type, or when an include map is
configured and misses the (known) type; with no metadata, skip exactly when
`excludeUnclassifiedObjects` is set. -/
def skipEntity (options : Options) (metaObject : Option MetaObject) : Bool :=
  match metaObject with
  | some mo =>
      (match options.excludeTypesMap, mo.type with
        | some m, some t => m t
        | _, _ => false) ||
      (match options.includeTypesMap, mo.type with
        | some m, some t => !(m t)
        | _, _ => false)
  | none => options.excludeUnclassifiedObjects

/-- `options.objectDefaults ? options.objectDefaults[metaObject.type || "DEFAULT"] : null`. -/
def entityProps (options : Options) (mo : MetaObject) : Option ObjectProps :=
  match options.objectDefaults with
  | some defs => defs (mo.type.getD "DEFAULT")
  | none => none

/-- The `entityDefaults` accumulated for an entity (lines 139–146): `visible`
and `pickable` are set to `false` exactly when the resolved props carry an
explicit `false`. -/
def entityDefaultsOf (options : Options) (metaObject : Option MetaObject) : EntityDefaults :=
  match metaObject with
  | some mo =>
      match entityProps options mo with
      | some props =>
          { visible := if props.visible = some false then some false else none
            pickable := if props.pickable = some false then some false else none }
      | none => {}
  | none => {}

/-- The `meshDefaults` accumulated for an entity (lines 147–152): `color` from
a truthy `props.colorize`, `opacity` from a non-null, defined `props.opacity`. -/
def meshDefaultsOf (options : Options) (metaObject : Option MetaObject) : MeshDefaults :=
  match metaObject with
  | some mo =>
      match entityProps options mo with
      | some props => { color := props.colorize, opacity := props.opacity }
      | none => {}
  | none => {}

/-- `meshColors[(j * 4) + 3] / 255.0` (line 168). -/
def opacityAt (data : DecodedContainer) (j : ℕ) : ℚ :=
  (data.meshColors.getD (4 * j + 3) 0 : ℚ) / 255

/-- The mesh identifier `entityId + ".mesh." + j` (line 165). -/
def meshIdAt (entityId : String) (j : ℕ) : String :=
  entityId ++ ".mesh." ++ toString j

/-- The literal object passed to `createMesh` for mesh `j` of an entity
(lines 170–180), before the defaults merge.  `lastMesh` is
`j === numMeshes - 1` with `numMeshes = meshPositions.length`; the guarded
end offsets are the full shared-array lengths for the last mesh and the next
recorded offsets otherwise.  Note the source reuses `positions.length` as the
end bound of the `normals` slice. -/
def meshRecordAt (data : DecodedContainer) (entityId : String) (j : ℕ) : MeshRecord :=
  let lastMesh : Bool := j + 1 == data.meshPositions.length
  { id := meshIdAt entityId j
    primitive := "triangles"
    positions := subarray data.positions (data.meshPositions.getD j 0)
      (if lastMesh then data.positions.length else data.meshPositions.getD (j + 1) 0)
    normals := subarray data.normals (data.meshPositions.getD j 0)
      (if lastMesh then data.positions.length else data.meshPositions.getD (j + 1) 0)
    indices := subarray data.indices (data.meshIndices.getD j 0)
      (if lastMesh then data.indices.length else data.meshIndices.getD (j + 1) 0)
    edgeIndices := subarray data.edgeIndices (data.meshEdgesIndices.getD j 0)
      (if lastMesh then data.edgeIndices.length else data.meshEdgesIndices.getD (j + 1) 0)
    positionsDecodeMatrix := data.positionsDecodeMatrix
    color := some (decompressColor (subarray data.meshColors (4 * j) (4 * j + 3)))
    opacity := some (opacityAt data j) }

/-- The mesh indices visited for entity `i` (line 162): `j` runs from
`entityMeshes[i]` to `jlen`, where `jlen` is `entityMeshes.length` for the
last entity and `entityMeshes[i + 1]` otherwise.  (Note the source bounds the
last entity by `entityMeshes.length`, the entity count, not by the mesh
count.) -/
def entityMeshRange (data : DecodedContainer) (i : ℕ) : List ℕ :=
  let start := data.entityMeshes.getD i 0
  let jlen := if i + 1 = data.entityMeshes.length then data.entityMeshes.length
    else data.entityMeshes.getD (i + 1) 0
  List.range' start (jlen - start)

/-- One builder call issued by `load`. -/
inductive Event where
  | createMesh (record : MeshRecord)
  | createEntity (record : EntityRecord)
  deriving DecidableEq

/-- The builder calls issued for entity `i`: nothing when the entity is
filtered out, otherwise the `createMesh` calls for its mesh range followed by
its `createEntity` call (lines 120–190). -/
def entityEvents (data : DecodedContainer) (options : Options)
    (metaObjects : String → Option MetaObject) (i : ℕ) : List Event :=
  let entityId := data.entityIDs.getD i ""
  let metaObject := metaObjects entityId
  if skipEntity options metaObject then []
  else
    (entityMeshRange data i).map (fun j =>
      Event.createMesh (applyMeshDefaults (meshDefaultsOf options metaObject)
        (meshRecordAt data entityId j))) ++
    [Event.createEntity (applyEntityDefaults (entityDefaultsOf options metaObject)
      { id := entityId
        isObject := data.entityIsObjects.getD i 0 == 1
        meshIds := (entityMeshRange data i).map (meshIdAt entityId)
        visible := none
        pickable := none })]

/-- `load(viewer, options, inflatedData, performanceModel)` as the trace of
builder calls: the entity loop `i = 0 .. numEntities - 1` in ascending order,
with `numEntities = entityMeshes.length`. -/
def load (metaObjects : String → Option MetaObject) (options : Options)
    (data : DecodedContainer) : List Event :=
  (List.range data.entityMeshes.length).flatMap (entityEvents data options metaObjects)

/-- Is an event a `createMesh` call? -/
def isCreateMesh : Event → Bool
  | .createMesh _ => true
  | .createEntity _ => false

/-- Is an event a `createEntity` call? -/
def isCreateEntity : Event → Bool
  | .createMesh _ => false
  | .createEntity _ => true

/-! ### Concrete decoded containers used as test inputs -/

/-- A consistent container with one entity and two meshes (`N = 1`, `M = 2`):
mesh 0 covers positions `[0, 6)`, mesh 1 covers `[6, 12)`. -/
def data1 : DecodedContainer :=
  { positions := [1, 2, 3, 4, 5, 6, 7, 8, 9, 10, 11, 12]
    normals := [1, 1, 1, 1, 1, 1, -1, -1, -1, -1, -1, -1]
    indices := [0, 1, 2, 1, 2, 3]
    edgeIndices := [0, 1, 1, 2]
    meshPositions := [0, 6]
    meshIndices := [0, 3]
    meshEdgesIndices := [0, 2]
    meshColors := [255, 0, 128, 64, 10, 20, 30, 40]
    entityIDs := ["e0"]
    entityMeshes := [0]
    entityIsObjects := [1]
    positionsDecodeMatrix := [1, 0, 0, 0, 0, 1, 0, 0, 0, 0, 1, 0, 0, 0, 0, 1] }

/-- A container with `entityMeshes = [0, 0, 2]` (three entities) and three
meshes; all arrays are mutually consistent. -/
def data7 : DecodedContainer :=
  { positions := [1, 2, 3, 4, 5, 6, 7, 8, 9]
    normals := [1, 1, 1, 2, 2, 2, 3, 3, 3]
    indices := [0, 1, 2, 3, 4, 5, 6, 7, 8]
    edgeIndices := [0, 1, 2, 3, 4, 5]
    meshPositions := [0, 3, 6]
    meshIndices := [0, 3, 6]
    meshEdgesIndices := [0, 2, 4]
    meshColors := [255, 0, 128, 64, 10, 20, 30, 40, 50, 60, 70, 80]
    entityIDs := ["a", "b", "c"]
    entityMeshes := [0, 0, 2]
    entityIsObjects := [1, 0, 1]
    positionsDecodeMatrix := [1, 0, 0, 0, 0, 1, 0, 0, 0, 0, 1, 0, 0, 0, 0, 1] }

/-- The single-entity, single-mesh container (`entityMeshes = [0]`,
`meshPositions = [0]`). -/
def dataSingle : DecodedContainer :=
  { positions := [1, 2, 3, 4, 5, 6]
    normals := [1, 1, 1, 2, 2, 2]
    indices := [0, 1, 0]
    edgeIndices := [0, 1]
    meshPositions := [0]
    meshIndices := [0]
    meshEdgesIndices := [0]
    meshColors := [255, 0, 128, 64]
    entityIDs := ["only"]
    entityMeshes := [0]
    entityIsObjects := [1]
    positionsDecodeMatrix := [1, 0, 0, 0, 0, 1, 0, 0, 0, 0, 1, 0, 0, 0, 0, 1] }

/-- A container whose `meshPositions` offset table is strictly decreasing
(`[4, 2]`), violating the non-decreasing offset-table invariant; every other
array is consistent with `M = 2`, `N = 1`. -/
def dataDec : DecodedContainer :=
  { positions := [1, 2, 3, 4, 5, 6]
    normals := [1, 1, 1, 2, 2, 2]
    indices := [0, 1, 0]
    edgeIndices := [0, 1]
    meshPositions := [4, 2]
    meshIndices := [0, 2]
    meshEdgesIndices := [0, 1]
    meshColors := [255, 0, 128, 64, 10, 20, 30, 40]
    entityIDs := ["d0"]
    entityMeshes := [0]
    entityIsObjects := [1]
    positionsDecodeMatrix := [1, 0, 0, 0, 0, 1, 0, 0, 0, 0, 1, 0, 0, 0, 0, 1] }

/-- Options configuring a `colorize` and an `opacity` default for
classification type `"T"`. -/
def optionsColorized : Options :=
  { objectDefaults := some fun t =>
      if t == "T" then some { colorize := some [1, 1, 1], opacity := some (1 / 2) }
      else none }

/-- A metadata store classifying `dataSingle`'s entity as type `"T"`. -/
def metasClassified : String → Option MetaObject := fun s =>
  if s == "only" then some { type := some "T" } else none

/-- The mesh record emitted for `dataSingle`'s single mesh under
`optionsColorized` and `metasClassified`. -/
def meshRecordColorized : MeshRecord :=
  applyMeshDefaults (meshDefaultsOf optionsColorized (some { type := some "T" }))
    (meshRecordAt dataSingle "only" 0)

/-- Options excluding classification type `"Wall"`. -/
def optionsWall : Options := { excludeTypesMap := some fun t => t == "Wall" }

/-- A metadata store classifying `data7`'s entity `"a"` as a `"Wall"` and
leaving the other entities unclassified. -/
def metasWall : String → Option MetaObject := fun s =>
  if s == "a" then some { type := some "Wall" } else none

/-! ### Keyed trace (for the ordering claim)

Each builder call is tagged with a key `(entity index, position)`: the
`createMesh` call for mesh `j` of entity `i` gets key `(i, j)` and the
entity's `createEntity` call gets key `(i, end)` with `end` one past the last
visited mesh index.  The keys of the trace being strictly increasing in the
lexicographic order expresses the required ordering: entities in ascending
index order, `createMesh` calls in ascending mesh order within an entity, and
each entity's `createEntity` call after all of its `createMesh` calls. -/

/-- Strict lexicographic order on keys. -/
def lexLt (a b : ℕ × ℕ) : Prop :=
  a.1 < b.1 ∨ (a.1 = b.1 ∧ a.2 < b.2)

/-- One past the last visited mesh index of entity `i`. -/
def entityEndKey (data : DecodedContainer) (i : ℕ) : ℕ :=
  data.entityMeshes.getD i 0 + (entityMeshRange data i).length

/-- `entityEvents`, with each event tagged by its key. -/
def keyedEntityEvents (data : DecodedContainer) (options : Options)
    (metaObjects : String → Option MetaObject) (i : ℕ) : List ((ℕ × ℕ) × Event) :=
  let entityId := data.entityIDs.getD i ""
  let metaObject := metaObjects entityId
  if skipEntity options metaObject then []
  else
    (entityMeshRange data i).map (fun j =>
      ((i, j), Event.createMesh (applyMeshDefaults (meshDefaultsOf options metaObject)
        (meshRecordAt data entityId j)))) ++
    [((i, entityEndKey data i),
      Event.createEntity (applyEntityDefaults (entityDefaultsOf options metaObject)
        { id := entityId
          isObject := data.entityIsObjects.getD i 0 == 1
          meshIds := (entityMeshRange data i).map (meshIdAt entityId)
          visible := none
          pickable := none }))]

/-- `load`, with each event tagged by its key. -/
def keyedLoad (metaObjects : String → Option MetaObject) (options : Options)
    (data : DecodedContainer) : List ((ℕ × ℕ) × Event) :=
  (List.range data.entityMeshes.length).flatMap (keyedEntityEvents data options metaObjects)

/-! ### Stateful model of the shared `color2` buffer

`decompressColor` is an IIFE closing over a single `Float32Array(3)` named
`color2`, allocated once at module evaluation; every call overwrites that
array and returns the same object.  We model the module's float-array store
as a heap from addresses to contents, with the one allocation at
`color2Addr`, and re-run the entity/mesh loops threading the heap; a mesh
record then carries the *address* returned by `decompressColor`, which is
what the JS record holds. -/

/-- The store of allocated float arrays. -/
abbrev Heap : Type := ℕ → List ℚ

/-- The address of `color2`, the single buffer the IIFE allocates. -/
def color2Addr : ℕ := 0

/-- The heap after module evaluation: `new Float32Array(3)` is
zero-filled. -/
def initHeap : Heap := fun _ => [0, 0, 0]

/-- The color quad slice taken for mesh `j` (line 167). -/
def colorQuadAt (data : DecodedContainer) (j : ℕ) : List ℕ :=
  subarray data.meshColors (4 * j) (4 * j + 3)

/-- Stateful semantics of one `decompressColor` call: overwrite the shared
buffer with the decoded channels and return its address. -/
def decompressColorS (color : List ℕ) (h : Heap) : ℕ × Heap :=
  (color2Addr, Function.update h color2Addr (decompressColor color))

/-- The mesh-creation record in the stateful model: the `color` field holds
the address of the array object returned by `decompressColor`. -/
structure MeshRecordS where
  id : String
  colorRef : ℕ
  opacity : ℚ
  deriving DecidableEq

/-- A builder call in the stateful model. -/
inductive EventS where
  | createMesh (record : MeshRecordS)
  | createEntity (id : String)
  deriving DecidableEq

/-- The inner mesh loop of `load`, threading the heap. -/
def runMeshListS (data : DecodedContainer) (entityId : String) :
    List ℕ → Heap → List EventS × Heap
  | [], h => ([], h)
  | j :: rest, h =>
      let c := decompressColorS (colorQuadAt data j) h
      let r := runMeshListS data entityId rest c.2
      (EventS.createMesh
        { id := meshIdAt entityId j, colorRef := c.1, opacity := opacityAt data j } :: r.1,
        r.2)

/-- The entity loop of `load`, threading the heap. -/
def runEntitiesS (data : DecodedContainer) (options : Options)
    (metas : String → Option MetaObject) : List ℕ → Heap → List EventS × Heap
  | [], h => ([], h)
  | i :: rest, h =>
      let entityId := data.entityIDs.getD i ""
      if skipEntity options (metas entityId) then runEntitiesS data options metas rest h
      else
        let m := runMeshListS data entityId (entityMeshRange data i) h
        let r := runEntitiesS data options metas rest m.2
        (m.1 ++ EventS.createEntity entityId :: r.1, r.2)

/-- `load` in the stateful model: trace of builder calls plus final heap. -/
def loadS (metas : String → Option MetaObject) (options : Options)
    (data : DecodedContainer) (h : Heap) : List EventS × Heap :=
  runEntitiesS data options metas (List.range data.entityMeshes.length) h

/-- All mesh indices visited over the whole decode, in visit order. -/
def visitedMeshes (data : DecodedContainer) (options : Options)
    (metas : String → Option MetaObject) : List ℕ :=
  (List.range data.entityMeshes.length).flatMap fun i =>
    if skipEntity options (metas (data.entityIDs.getD i "")) then []
    else entityMeshRange data i

/-- The heap write performed by the `decompressColor` call for mesh `j`. -/
def colorStep (data : DecodedContainer) (h : Heap) (j : ℕ) : Heap :=
  Function.update h color2Addr (decompressColor (colorQuadAt data j))

/-- The stateful mesh record emitted for `dataSingle`'s single mesh. -/
def meshRecordSSingle : MeshRecordS :=
  { id := meshIdAt "only" 0, colorRef := color2Addr, opacity := opacityAt dataSingle 0 }

/-! ### Claims -/

/-- C1.  The claim says the last entity's mesh range is
`[entityMeshes[N-1], M)` with `M = meshPositions.length`, i.e. every mesh up
to index `M - 1` is emitted for it.  The source instead bounds the loop by
`jlen = entityMeshes.length` (the entity count `N`) for the last entity
(line 162).  On `data1`, where `N = 1` and `M = 2`, the claimed range is
`[0, 2)` (two `createMesh` calls), but the code performs exactly one
`createMesh` call — mesh 1 is never emitted. -/
theorem c1_last_entity_range_stops_at_entity_count :
    data1.meshPositions.length = 2 ∧ data1.entityMeshes = [0] ∧
    (load (fun _ => none) {} data1).countP isCreateMesh = 1 ∧
    (load (fun _ => none) {} data1).countP isCreateEntity = 1 := by
  decide

/-- C2, counterexample.  The claim says a container whose offset table
contains a decreasing value causes `InconsistentOffsetTableError` before the
entity loop, with no `createMesh` or `createEntity` calls.  `dataDec` has the
strictly decreasing `meshPositions = [4, 2]`, yet the decode performs a
`createMesh` call and a `createEntity` call: no validation exists in the
source. -/
theorem c2_no_error_on_decreasing_offsets :
    dataDec.meshPositions = [4, 2] ∧
    (load (fun _ => none) {} dataDec).countP isCreateMesh = 1 ∧
    (load (fun _ => none) {} dataDec).countP isCreateEntity = 1 := by
  decide

/-- C2, amended.  The decode performs no offset-table validation at all:
for every decoded container — consistent or not — with no filtering
configured, the entity loop runs and one `createEntity` call is made per
entity (`entityMeshes.length` of them). -/
theorem c2_entity_calls_without_validation
    (metas : String → Option MetaObject) (options : Options)
    (data : DecodedContainer)
    (hm : ∀ s, metas s = none)
    (ho : options.excludeUnclassifiedObjects = false) :
    (load metas options data).countP isCreateEntity = data.entityMeshes.length := by
  have hblock : ∀ i, (entityEvents data options metas i).countP isCreateEntity = 1 := by
    intro i
    simp [entityEvents, hm, skipEntity, ho, List.countP_append, List.countP_map,
      isCreateEntity, Function.comp]
  have hgen : ∀ l : List ℕ,
      ((l.flatMap (entityEvents data options metas)).countP isCreateEntity) = l.length := by
    intro l
    induction l with
    | nil => simp
    | cons a t ih =>
        simp [List.flatMap_cons, List.countP_append, hblock, ih, Nat.add_comm]
  simpa [load] using hgen (List.range data.entityMeshes.length)

/-- C2, witness for the amended claim at the inconsistent container
`dataDec`. -/
theorem c2_entity_calls_without_validation_witness :
    (load (fun _ => none) {} dataDec).countP isCreateEntity =
      dataDec.entityMeshes.length :=
  c2_entity_calls_without_validation (fun _ => none) {} dataDec
    (fun _ => rfl) rfl

/-- C7, counterexample.  The claim's example says that for
`entityMeshes = [0, 0, 2]`, entity 1 yields an empty mesh list and zero
mesh-creation calls.  In the source, entity 1's mesh range is
`[entityMeshes[1], entityMeshes[2]) = [0, 2)`: two `createMesh` calls occur
and the entity record's mesh list has two identifiers.  (The empty entity in
this container is entity 0.) -/
theorem c7_entity_one_has_two_meshes :
    data7.entityMeshes = [0, 0, 2] ∧
    (entityEvents data7 {} (fun _ => none) 1).countP isCreateMesh = 2 ∧
    ((entityEvents data7 {} (fun _ => none) 1).countP
      (fun e => match e with
        | .createEntity r => r.meshIds == ["b.mesh.0", "b.mesh.1"]
        | .createMesh _ => false)) = 1 := by
  decide

/-- C7, amended.  For every unfiltered non-last entity `e` with an empty mesh
range (`entityMeshes[e] == entityMeshes[e+1]`), no `createMesh` call is made
for `e`, yet exactly one `createEntity` call is made whose mesh-identifier
list is empty; for `entityMeshes = [0, 0, 2]` it is entity 0 that yields the
entity-creation record with the empty mesh list and zero mesh-creation
calls. -/
theorem c7_zero_mesh_entity_empty_record :
    (∀ (data : DecodedContainer) (options : Options)
      (metas : String → Option MetaObject) (i : ℕ),
      i + 1 < data.entityMeshes.length →
      data.entityMeshes.getD i 0 = data.entityMeshes.getD (i + 1) 0 →
      skipEntity options (metas (data.entityIDs.getD i "")) = false →
      ∃ r, entityEvents data options metas i = [Event.createEntity r] ∧
        r.meshIds = []) ∧
    entityEvents data7 {} (fun _ => none) 0 =
      [Event.createEntity
        { id := "a", isObject := true, meshIds := [], visible := none,
          pickable := none }] := by
  constructor
  · intro data options metas i h1 h2 h3
    have hne : i + 1 ≠ data.entityMeshes.length := Nat.ne_of_lt h1
    have hrange : entityMeshRange data i = [] := by
      simp only [entityMeshRange, if_neg hne]
      rw [← h2, Nat.sub_self, List.range'_zero]
    simp only [entityEvents, hrange, h3, Bool.false_eq_true, if_false,
      List.map_nil, List.nil_append]
    exact ⟨_, rfl, by simp [applyEntityDefaults]⟩
  · decide

/-- C7, witness for the general part of the amended claim, at entity 0 of
`data7`. -/
theorem c7_zero_mesh_entity_empty_record_witness :
    ∃ r, entityEvents data7 {} (fun _ => none) 0 = [Event.createEntity r] ∧
      r.meshIds = [] :=
  c7_zero_mesh_entity_empty_record.1 data7 {} (fun _ => none) 0
    (by decide) (by decide) (by decide)

/-- A subarray whose end offset is the full array length is the rest of the
array from its start offset. -/
theorem subarray_full_end {α : Type} (l : List α) (b : ℕ) :
    subarray l b l.length = l.drop b := by
  simp [subarray]

/-- Length of a subarray, with the JS clamping semantics. -/
theorem subarray_length {α : Type} (l : List α) (b e : ℕ) :
    (subarray l b e).length = min e l.length - b := by
  simp [subarray]

/-- Reading inside a subarray reads the underlying array at the shifted
index. -/
theorem subarray_getD {α : Type} (l : List α) (b e k : ℕ) (d : α)
    (hk : b + k < e) :
    (subarray l b e).getD k d = l.getD (b + k) d := by
  simp [subarray, List.getD_eq_getElem?_getD, List.getElem?_drop,
    List.getElem?_take, hk]

/-- C3.  Every `createMesh` record in the trace carries the literal decoded
color and opacity derived from `meshColors` for its mesh index `j`, whatever
classification defaults (`colorize` / `opacity`) the options configure: the
defaults merge never replaces the stream-derived `color` and `opacity`
fields.  (`utils.apply` is modelled from the spec, see
`applyMeshDefaults`.) -/
theorem c3_literal_color_opacity_survive_defaults
    (data : DecodedContainer) (options : Options)
    (metas : String → Option MetaObject) (r : MeshRecord)
    (h : Event.createMesh r ∈ load metas options data) :
    ∃ entityId j, r.id = meshIdAt entityId j ∧
      r.color = some (decompressColor (subarray data.meshColors (4 * j) (4 * j + 3))) ∧
      r.opacity = some (opacityAt data j) := by
  rcases List.mem_flatMap.mp h with ⟨i, _, hmem⟩
  simp only [entityEvents] at hmem
  split at hmem
  · simp at hmem
  · rcases List.mem_append.mp hmem with hmesh | hent
    · rcases List.mem_map.mp hmesh with ⟨j, _, heq⟩
      rcases Event.createMesh.inj heq with rfl
      exact ⟨data.entityIDs.getD i "", j, rfl, rfl, rfl⟩
    · simp at hent

/-- C3 witness: the single mesh of `dataSingle`, decoded under options that
configure both a `colorize` and an `opacity` default for its classification
type, still carries the literal stream-derived color and opacity. -/
theorem c3_literal_color_opacity_survive_defaults_witness :
    ∃ entityId j,
      meshRecordColorized.id = meshIdAt entityId j ∧
      meshRecordColorized.color =
        some (decompressColor (subarray dataSingle.meshColors (4 * j) (4 * j + 3))) ∧
      meshRecordColorized.opacity = some (opacityAt dataSingle j) :=
  c3_literal_color_opacity_survive_defaults dataSingle optionsColorized
    metasClassified meshRecordColorized (List.mem_cons_self _ _)

/-- C4.  A mesh whose index is the last (`j + 1 = meshPositions.length`)
slices positions, indices and edge indices up to the full length of the
respective shared array — i.e. it takes the rest of each buffer from its
start offset — while a non-last mesh ends each slice at the next recorded
offset. -/
theorem c4_mesh_slice_end_offsets :
    (∀ (data : DecodedContainer) (entityId : String) (j : ℕ),
      j + 1 = data.meshPositions.length →
      (meshRecordAt data entityId j).positions =
        data.positions.drop (data.meshPositions.getD j 0) ∧
      (meshRecordAt data entityId j).indices =
        data.indices.drop (data.meshIndices.getD j 0) ∧
      (meshRecordAt data entityId j).edgeIndices =
        data.edgeIndices.drop (data.meshEdgesIndices.getD j 0)) ∧
    (∀ (data : DecodedContainer) (entityId : String) (j : ℕ),
      j + 1 ≠ data.meshPositions.length →
      (meshRecordAt data entityId j).positions =
        subarray data.positions (data.meshPositions.getD j 0)
          (data.meshPositions.getD (j + 1) 0) ∧
      (meshRecordAt data entityId j).indices =
        subarray data.indices (data.meshIndices.getD j 0)
          (data.meshIndices.getD (j + 1) 0) ∧
      (meshRecordAt data entityId j).edgeIndices =
        subarray data.edgeIndices (data.meshEdgesIndices.getD j 0)
          (data.meshEdgesIndices.getD (j + 1) 0)) := by
  constructor
  · intro data entityId j h
    have hb : (j + 1 == data.meshPositions.length) = true := by simp [h]
    refine ⟨?_, ?_, ?_⟩ <;> simp [meshRecordAt, hb, subarray_full_end]
  · intro data entityId j h
    have hb : (j + 1 == data.meshPositions.length) = false := by simp [h]
    refine ⟨?_, ?_, ?_⟩ <;> simp [meshRecordAt, hb]

/-- C4 witness: last-mesh slicing at the single mesh of `dataSingle`
(`M = 1`, so mesh 0 is the last mesh) and next-offset slicing at mesh 0 of
`data7` (`M = 3`). -/
theorem c4_mesh_slice_end_offsets_witness :
    ((meshRecordAt dataSingle "only" 0).positions =
        dataSingle.positions.drop (dataSingle.meshPositions.getD 0 0) ∧
      (meshRecordAt dataSingle "only" 0).indices =
        dataSingle.indices.drop (dataSingle.meshIndices.getD 0 0) ∧
      (meshRecordAt dataSingle "only" 0).edgeIndices =
        dataSingle.edgeIndices.drop (dataSingle.meshEdgesIndices.getD 0 0)) ∧
    ((meshRecordAt data7 "a" 0).positions =
        subarray data7.positions (data7.meshPositions.getD 0 0)
          (data7.meshPositions.getD 1 0) ∧
      (meshRecordAt data7 "a" 0).indices =
        subarray data7.indices (data7.meshIndices.getD 0 0)
          (data7.meshIndices.getD 1 0) ∧
      (meshRecordAt data7 "a" 0).edgeIndices =
        subarray data7.edgeIndices (data7.meshEdgesIndices.getD 0 0)
          (data7.meshEdgesIndices.getD 1 0)) :=
  ⟨c4_mesh_slice_end_offsets.1 dataSingle "only" 0 (by decide),
    c4_mesh_slice_end_offsets.2 data7 "a" 0 (by decide)⟩

/-- C5.  The `normals` slice of every mesh record uses the exact same start
and end offsets as the `positions` slice (taken from `meshPositions`; there
is no separate normals offset table), and whenever the shared `positions`
and `normals` arrays have equal length, the two slices of every mesh have
equal length. -/
theorem c5_normals_share_position_offsets
    (data : DecodedContainer) (entityId : String) (j : ℕ)
    (h : data.positions.length = data.normals.length) :
    (meshRecordAt data entityId j).normals =
      subarray data.normals (data.meshPositions.getD j 0)
        (if j + 1 = data.meshPositions.length then data.positions.length
          else data.meshPositions.getD (j + 1) 0) ∧
    (meshRecordAt data entityId j).positions.length =
      (meshRecordAt data entityId j).normals.length := by
  by_cases hj : j + 1 = data.meshPositions.length
  · have hb : (j + 1 == data.meshPositions.length) = true := by simp [hj]
    constructor
    · simp [meshRecordAt, hb, hj]
    · simp [meshRecordAt, hb, subarray_length, h]
  · have hb : (j + 1 == data.meshPositions.length) = false := by simp [hj]
    constructor
    · simp [meshRecordAt, hb, hj]
    · simp [meshRecordAt, hb, subarray_length, h]

/-- C5 witness at the single mesh of `dataSingle`, whose positions and
normals arrays both have six elements. -/
theorem c5_normals_share_position_offsets_witness :
    (meshRecordAt dataSingle "only" 0).normals =
      subarray dataSingle.normals (dataSingle.meshPositions.getD 0 0)
        (if 0 + 1 = dataSingle.meshPositions.length then dataSingle.positions.length
          else dataSingle.meshPositions.getD (0 + 1) 0) ∧
    (meshRecordAt dataSingle "only" 0).positions.length =
      (meshRecordAt dataSingle "only" 0).normals.length :=
  c5_normals_share_position_offsets dataSingle "only" 0 rfl

/-- A skipped entity contributes no builder calls. -/
theorem entityEvents_skip (data : DecodedContainer) (options : Options)
    (metas : String → Option MetaObject) (i : ℕ)
    (hs : skipEntity options (metas (data.entityIDs.getD i "")) = true) :
    entityEvents data options metas i = [] := by
  simp only [entityEvents, hs]
  simp

/-- An unskipped entity always contributes at least its `createEntity`
call. -/
theorem entityEvents_noskip (data : DecodedContainer) (options : Options)
    (metas : String → Option MetaObject) (i : ℕ)
    (hs : skipEntity options (metas (data.entityIDs.getD i "")) = false) :
    entityEvents data options metas i ≠ [] := by
  simp only [entityEvents, hs, Bool.false_eq_true, if_false]
  simp

/-- C6.  The classification filter: an entity whose metadata type is hit by
the exclude set, or missed by a configured include set, produces no builder
calls at all; an entity without metadata is skipped exactly when
`excludeUnclassifiedObjects` is configured; and an entity whose metadata has
no (known) type is never skipped by the include/exclude sets. -/
theorem c6_classification_filtering
    (data : DecodedContainer) (options : Options)
    (metas : String → Option MetaObject) (i : ℕ) :
    (∀ mo t, metas (data.entityIDs.getD i "") = some mo → mo.type = some t →
      ((∃ m, options.excludeTypesMap = some m ∧ m t = true) ∨
        (∃ m, options.includeTypesMap = some m ∧ m t = false)) →
      entityEvents data options metas i = []) ∧
    (metas (data.entityIDs.getD i "") = none →
      (entityEvents data options metas i = [] ↔
        options.excludeUnclassifiedObjects = true)) ∧
    (∀ mo, metas (data.entityIDs.getD i "") = some mo → mo.type = none →
      entityEvents data options metas i ≠ []) := by
  refine ⟨?_, ?_, ?_⟩
  · intro mo t hmo ht hskip
    refine entityEvents_skip data options metas i ?_
    rw [hmo]
    rcases hskip with ⟨m, hm, hmt⟩ | ⟨m, hm, hmt⟩ <;>
      simp [skipEntity, hm, ht, hmt]
  · intro hmo
    constructor
    · intro hev
      by_contra hex
      refine entityEvents_noskip data options metas i ?_ hev
      rw [hmo]
      simpa [skipEntity] using Bool.not_eq_true _ |>.mp hex
    · intro hex
      refine entityEvents_skip data options metas i ?_
      rw [hmo]
      simpa [skipEntity] using hex
  · intro mo hmo ht
    refine entityEvents_noskip data options metas i ?_
    rw [hmo]
    simp [skipEntity, ht]

/-- C6 witness: under `excludeTypes = Set("Wall")`, entity 0 of `data7`
(classified `"Wall"`) produces no builder calls, while entity 1 (no
metadata) is not skipped because `excludeUnclassifiedObjects` is off. -/
theorem c6_classification_filtering_witness :
    entityEvents data7 optionsWall metasWall 0 = [] ∧
    (entityEvents data7 optionsWall metasWall 1 = [] ↔
      optionsWall.excludeUnclassifiedObjects = true) :=
  ⟨(c6_classification_filtering data7 optionsWall metasWall 0).1
      { type := some "Wall" } "Wall" rfl rfl (Or.inl ⟨_, rfl, rfl⟩),
    (c6_classification_filtering data7 optionsWall metasWall 1).2.1 rfl⟩

/-- C9.  The record for mesh `j` carries color channels
`meshColors[4j]/255`, `meshColors[4j+1]/255`, `meshColors[4j+2]/255` and
opacity `meshColors[4j+3]/255`; every such value lies in `[0, 1]` when the
byte stream is in range; and for the quad `[255, 0, 128, 64]` the decoded
color is `[1.0, 0.0, 0.50196...]` with opacity `64/255 ≈ 0.251`. -/
theorem c9_color_and_opacity_decode :
    (∀ (data : DecodedContainer) (entityId : String) (j : ℕ),
      4 * j + 3 < data.meshColors.length →
      (meshRecordAt data entityId j).color =
        some [(data.meshColors.getD (4 * j) 0 : ℚ) / 255,
          (data.meshColors.getD (4 * j + 1) 0 : ℚ) / 255,
          (data.meshColors.getD (4 * j + 2) 0 : ℚ) / 255] ∧
      (meshRecordAt data entityId j).opacity =
        some ((data.meshColors.getD (4 * j + 3) 0 : ℚ) / 255)) ∧
    (∀ (data : DecodedContainer) (k : ℕ),
      (∀ x ∈ data.meshColors, x ≤ 255) →
      0 ≤ (data.meshColors.getD k 0 : ℚ) / 255 ∧
        (data.meshColors.getD k 0 : ℚ) / 255 ≤ 1) ∧
    (decompressColor [255, 0, 128] = [1, 0, 128 / 255] ∧
      (50196 : ℚ) / 100000 ≤ 128 / 255 ∧ (128 : ℚ) / 255 < 50197 / 100000 ∧
      (250 : ℚ) / 1000 < 64 / 255 ∧ (64 : ℚ) / 255 < 252 / 1000) := by
  refine ⟨?_, ?_, ?_⟩
  · intro data entityId j h
    constructor
    · show some (decompressColor (subarray data.meshColors (4 * j) (4 * j + 3))) = _
      have h0 := subarray_getD data.meshColors (4 * j) (4 * j + 3) 0 0 (by omega)
      have h1 := subarray_getD data.meshColors (4 * j) (4 * j + 3) 1 0 (by omega)
      have h2 := subarray_getD data.meshColors (4 * j) (4 * j + 3) 2 0 (by omega)
      unfold decompressColor
      rw [h0, h1, h2]
      norm_num
    · rfl
  · intro data k hall
    have hle : data.meshColors.getD k 0 ≤ 255 := by
      rcases Nat.lt_or_ge k data.meshColors.length with hk | hk
      · refine hall _ ?_
        rw [List.getD_eq_getElem?_getD, List.getElem?_eq_getElem hk]
        exact List.getElem_mem hk
      · rw [List.getD_eq_getElem?_getD, List.getElem?_eq_none hk]
        exact Nat.zero_le 255
    constructor
    · positivity
    · rw [div_le_one (by norm_num)]
      exact_mod_cast hle
  · refine ⟨?_, by norm_num, by norm_num, by norm_num, by norm_num⟩
    norm_num [decompressColor]

/-- C9 witness at mesh 0 of `dataSingle`, whose color quad is
`[255, 0, 128, 64]`. -/
theorem c9_color_and_opacity_decode_witness :
    ((meshRecordAt dataSingle "only" 0).color =
      some [(dataSingle.meshColors.getD (4 * 0) 0 : ℚ) / 255,
        (dataSingle.meshColors.getD (4 * 0 + 1) 0 : ℚ) / 255,
        (dataSingle.meshColors.getD (4 * 0 + 2) 0 : ℚ) / 255] ∧
      (meshRecordAt dataSingle "only" 0).opacity =
        some ((dataSingle.meshColors.getD (4 * 0 + 3) 0 : ℚ) / 255)) ∧
    (0 ≤ (dataSingle.meshColors.getD 3 0 : ℚ) / 255 ∧
      (dataSingle.meshColors.getD 3 0 : ℚ) / 255 ≤ 1) :=
  ⟨c9_color_and_opacity_decode.1 dataSingle "only" 0 (by decide),
    c9_color_and_opacity_decode.2.1 dataSingle 3 (by decide)⟩

/-- Every keyed event of entity `i`'s block carries entity index `i`. -/
theorem keyedEntityEvents_fst (data : DecodedContainer) (options : Options)
    (metas : String → Option MetaObject) (i : ℕ) :
    ∀ k ∈ keyedEntityEvents data options metas i, k.1.1 = i := by
  intro k hk
  simp only [keyedEntityEvents] at hk
  split at hk
  · simp at hk
  · rcases List.mem_append.mp hk with h | h
    · rcases List.mem_map.mp h with ⟨j, _, rfl⟩
      rfl
    · rw [List.mem_singleton.mp h]

/-- A visited mesh index is below the entity's end key. -/
theorem mem_entityMeshRange_lt (data : DecodedContainer) (i j : ℕ)
    (h : j ∈ entityMeshRange data i) : j < entityEndKey data i := by
  unfold entityEndKey
  unfold entityMeshRange at h ⊢
  rw [List.length_range']
  exact (List.mem_range'_1.mp h).2

/-- Within one entity's block, keys strictly increase: mesh keys ascend and
the `createEntity` key comes last. -/
theorem keyedEntityEvents_keys_pairwise (data : DecodedContainer)
    (options : Options) (metas : String → Option MetaObject) (i : ℕ) :
    List.Pairwise lexLt ((keyedEntityEvents data options metas i).map Prod.fst) := by
  simp only [keyedEntityEvents]
  split
  · simp
  · rw [List.map_append, List.map_map]
    refine List.pairwise_append.mpr ⟨?_, ?_, ?_⟩
    · have hpr : List.Pairwise (fun a b => a < b) (entityMeshRange data i) := by
        unfold entityMeshRange
        exact List.pairwise_lt_range' _ _
      refine List.Pairwise.map _ ?_ hpr
      intro a b hab
      exact Or.inr ⟨rfl, hab⟩
    · simp
    · intro a ha b hb
      rcases List.mem_map.mp ha with ⟨j, hj, rfl⟩
      have hb' : b = (i, entityEndKey data i) := by simpa using hb
      subst hb'
      exact Or.inr ⟨rfl, mem_entityMeshRange_lt data i j hj⟩

/-- Dropping the keys of one entity block recovers its builder calls. -/
theorem keyedEntityEvents_snd (data : DecodedContainer) (options : Options)
    (metas : String → Option MetaObject) (i : ℕ) :
    (keyedEntityEvents data options metas i).map Prod.snd =
      entityEvents data options metas i := by
  simp only [keyedEntityEvents, entityEvents]
  split
  · rfl
  · rw [List.map_append, List.map_map]
    rfl

/-- The keys of the whole keyed trace strictly increase lexicographically. -/
theorem keyedLoad_keys_pairwise (metas : String → Option MetaObject)
    (options : Options) (data : DecodedContainer) :
    List.Pairwise lexLt ((keyedLoad metas options data).map Prod.fst) := by
  rw [keyedLoad, List.map_flatMap, List.flatMap_def]
  refine List.pairwise_flatten.mpr ⟨?_, ?_⟩
  · intro l hl
    rcases List.mem_map.mp hl with ⟨i, _, rfl⟩
    exact keyedEntityEvents_keys_pairwise data options metas i
  · refine List.Pairwise.map _ ?_ (List.pairwise_lt_range _)
    intro i1 i2 h12 x hx y hy
    rcases List.mem_map.mp hx with ⟨a, ha, rfl⟩
    rcases List.mem_map.mp hy with ⟨b, hb, rfl⟩
    exact Or.inl (by
      rw [keyedEntityEvents_fst data options metas i1 a ha,
        keyedEntityEvents_fst data options metas i2 b hb]
      exact h12)

/-- C8.  The builder-call order is deterministic and strictly ascending: the
trace `load` is the key-erased form of `keyedLoad`, whose keys (entity index,
then mesh index with the `createEntity` call keyed one past the entity's last
mesh) are strictly increasing in lexicographic order — entities ascend,
`createMesh` calls ascend within an entity, and each entity's `createEntity`
call comes after all of its `createMesh` calls.  For the single-entity,
single-mesh container the call sequence is exactly one `createMesh` followed
by one `createEntity`. -/
theorem c8_builder_call_order :
    (∀ (metas : String → Option MetaObject) (options : Options)
      (data : DecodedContainer),
      (keyedLoad metas options data).map Prod.snd = load metas options data ∧
      List.Pairwise lexLt ((keyedLoad metas options data).map Prod.fst)) ∧
    (load (fun _ => none) {} dataSingle).map isCreateEntity = [false, true] := by
  refine ⟨fun metas options data =>
    ⟨?_, keyedLoad_keys_pairwise metas options data⟩, by decide⟩
  rw [keyedLoad, load, List.map_flatMap]
  simp only [keyedEntityEvents_snd]

/-- The heap output of the mesh loop folds the `decompressColor` writes. -/
theorem runMeshListS_snd (data : DecodedContainer) (entityId : String)
    (js : List ℕ) :
    ∀ h, (runMeshListS data entityId js h).2 = js.foldl (colorStep data) h := by
  induction js with
  | nil => intro h; rfl
  | cons j rest ih =>
      intro h
      show (runMeshListS data entityId rest (colorStep data h j)).2 = _
      rw [List.foldl_cons]
      exact ih _

/-- Folding the color writes leaves the last visited mesh's decoded color in
the shared buffer. -/
theorem foldl_colorStep_getLast (data : DecodedContainer) (js : List ℕ) :
    ∀ (h : Heap) (j : ℕ), js.getLast? = some j →
      js.foldl (colorStep data) h color2Addr = decompressColor (colorQuadAt data j) := by
  induction js with
  | nil => intro h j hj; simp at hj
  | cons a rest ih =>
      intro h j hj
      cases rest with
      | nil =>
          obtain rfl : a = j := by simpa using hj
          show colorStep data h a color2Addr = _
          simp [colorStep]
      | cons b t =>
          rw [List.getLast?_cons_cons] at hj
          rw [List.foldl_cons]
          exact ih _ _ hj

/-- The heap output of the entity loop folds the color writes of all visited
meshes. -/
theorem runEntitiesS_snd (data : DecodedContainer) (options : Options)
    (metas : String → Option MetaObject) (is : List ℕ) :
    ∀ h, (runEntitiesS data options metas is h).2 =
      (is.flatMap fun i =>
        if skipEntity options (metas (data.entityIDs.getD i "")) then []
        else entityMeshRange data i).foldl (colorStep data) h := by
  induction is with
  | nil => intro h; rfl
  | cons i rest ih =>
      intro h
      rw [List.flatMap_cons]
      by_cases hs : skipEntity options (metas (data.entityIDs.getD i "")) = true
      · simp only [runEntitiesS, hs, if_true, List.nil_append]
        exact ih h
      · have hs' : skipEntity options (metas (data.entityIDs.getD i "")) = false := by
          simpa using hs
        simp only [runEntitiesS, hs', Bool.false_eq_true, if_false]
        rw [List.foldl_append, ← runMeshListS_snd data (data.entityIDs.getD i "")
          (entityMeshRange data i) h]
        exact ih _

/-- Every stateful mesh record of the mesh loop holds the shared buffer's
address. -/
theorem runMeshListS_colorRef (data : DecodedContainer) (entityId : String)
    (js : List ℕ) :
    ∀ h r, EventS.createMesh r ∈ (runMeshListS data entityId js h).1 →
      r.colorRef = color2Addr := by
  induction js with
  | nil => intro h r hr; simp [runMeshListS] at hr
  | cons j rest ih =>
      intro h r hr
      have hr' : EventS.createMesh r ∈
          EventS.createMesh
            { id := meshIdAt entityId j, colorRef := color2Addr,
              opacity := opacityAt data j } ::
          (runMeshListS data entityId rest (colorStep data h j)).1 := hr
      rcases List.mem_cons.mp hr' with he | ht
      · rw [EventS.createMesh.inj he]
      · exact ih _ _ ht

/-- Every stateful mesh record of the entity loop holds the shared buffer's
address. -/
theorem runEntitiesS_colorRef (data : DecodedContainer) (options : Options)
    (metas : String → Option MetaObject) (is : List ℕ) :
    ∀ h r, EventS.createMesh r ∈ (runEntitiesS data options metas is h).1 →
      r.colorRef = color2Addr := by
  induction is with
  | nil => intro h r hr; simp [runEntitiesS] at hr
  | cons i rest ih =>
      intro h r hr
      simp only [runEntitiesS] at hr
      split at hr
      · exact ih _ _ hr
      · rcases List.mem_append.mp hr with hm | hc
        · exact runMeshListS_colorRef data _ _ _ _ hm
        · rcases List.mem_cons.mp hc with he | ht
          · simp at he
          · exact ih _ _ ht

/-- C10.  `decompressColor` reuses one persistent buffer: two successive
calls return the identical array object, whose contents after the second
call are the second input divided by 255 (the first result is overwritten);
every mesh-creation record of a decode receives that same array object; and
at the end of a decode the object holds the values of the most recently
decoded mesh. -/
theorem c10_decompress_color_buffer_reuse :
    (∀ (c1 c2 : List ℕ) (h : Heap),
      (decompressColorS c1 h).1 = (decompressColorS c2 (decompressColorS c1 h).2).1 ∧
      (decompressColorS c2 (decompressColorS c1 h).2).2 ((decompressColorS c1 h).1) =
        decompressColor c2) ∧
    (∀ (metas : String → Option MetaObject) (options : Options)
      (data : DecodedContainer) (h : Heap) (r : MeshRecordS),
      EventS.createMesh r ∈ (loadS metas options data h).1 →
      r.colorRef = color2Addr) ∧
    (∀ (metas : String → Option MetaObject) (options : Options)
      (data : DecodedContainer) (h : Heap) (j : ℕ),
      (visitedMeshes data options metas).getLast? = some j →
      (loadS metas options data h).2 color2Addr =
        decompressColor (colorQuadAt data j)) := by
  refine ⟨?_, ?_, ?_⟩
  · intro c1 c2 h
    exact ⟨rfl, by simp [decompressColorS]⟩
  · intro metas options data h r hr
    exact runEntitiesS_colorRef data options metas _ _ _ hr
  · intro metas options data h j hj
    rw [loadS, runEntitiesS_snd]
    exact foldl_colorStep_getLast data _ _ _ hj

/-- C10 witness on `dataSingle`: the emitted stateful record holds the
shared buffer's address, and the final heap holds mesh 0's decoded color at
that address. -/
theorem c10_decompress_color_buffer_reuse_witness :
    meshRecordSSingle.colorRef = color2Addr ∧
    (loadS (fun _ => none) {} dataSingle initHeap).2 color2Addr =
      decompressColor (colorQuadAt dataSingle 0) :=
  ⟨c10_decompress_color_buffer_reuse.2.1 (fun _ => none) {} dataSingle initHeap
      meshRecordSSingle (List.mem_cons_self _ _),
    c10_decompress_color_buffer_reuse.2.2 (fun _ => none) {} dataSingle initHeap 0
      (by decide)⟩

end XKTV1
